import Mathlib

/-!
Shallow embedding of `src/native/sara_mix_executor/src/lib.rs`: a single
background worker thread consuming `Message`s (`Work(String, String)` or
`Shutdown`) from an mpsc channel, with a shared atomic liveness flag.

Byte strings are modelled as `List Nat` (each entry one byte).  A Rust
`String` is modelled by its UTF-8 byte representation.  The concurrent
behaviour of the worker thread and the caller-side `enqueue` / `destroy`
operations is modelled as a small-step transition relation `Step` on a
global state `Sys`, with ghost fields recording the sequences of messages
successfully sent into and received from the channel, and the sequence of
callback invocations.
-/

/-- A Rust `String`, modelled by its UTF-8 byte representation. -/
abbrev RustStr := List Nat

/-- The UTF-8 encoding of U+FFFD REPLACEMENT CHARACTER, which Rust's
`String::from_utf8_lossy` substitutes for each maximal invalid subpart. -/
def replacementBytes : List Nat := [0xEF, 0xBF, 0xBD]

/-- Classification of one byte in lead position for the UTF-8 decoder used
by `to_string_lossy`: `emit` is output produced at once (an ASCII byte, or
a replacement sequence for an invalid lead), `pending`/`need`/`low`/`high`
describe the multi-byte sequence being started (bytes accepted so far,
number of continuation bytes still required, and the allowed range for the
next byte — the second byte of a sequence has the restricted ranges of
Rust's `core::str` validation, later continuations allow `0x80..=0xBF`).
`ok` records whether the byte is legal in lead position. -/
structure LeadOut where
  emit : List Nat
  pending : List Nat
  need : Nat
  low : Nat
  high : Nat
  ok : Bool
deriving DecidableEq

/-- Dispatch on a byte in lead position, following Rust's UTF-8 validation
(`core/src/str/validations.rs`): ASCII, 2-byte leads `C2..=DF`, 3-byte
leads `E0..=EF` with their second-byte ranges (`E0`: `A0..=BF`, `ED`:
`80..=9F`), 4-byte leads `F0..=F4` with their second-byte ranges (`F0`:
`90..=BF`, `F4`: `80..=8F`); everything else is invalid in lead position. -/
def leadClass (b : Nat) : LeadOut :=
  if b < 0x80 then ⟨[b], [], 0, 0, 0, true⟩
  else if 0xC2 ≤ b ∧ b ≤ 0xDF then ⟨[], [b], 1, 0x80, 0xBF, true⟩
  else if b = 0xE0 then ⟨[], [b], 2, 0xA0, 0xBF, true⟩
  else if 0xE1 ≤ b ∧ b ≤ 0xEC then ⟨[], [b], 2, 0x80, 0xBF, true⟩
  else if b = 0xED then ⟨[], [b], 2, 0x80, 0x9F, true⟩
  else if 0xEE ≤ b ∧ b ≤ 0xEF then ⟨[], [b], 2, 0x80, 0xBF, true⟩
  else if b = 0xF0 then ⟨[], [b], 3, 0x90, 0xBF, true⟩
  else if 0xF1 ≤ b ∧ b ≤ 0xF3 then ⟨[], [b], 3, 0x80, 0xBF, true⟩
  else if b = 0xF4 then ⟨[], [b], 3, 0x80, 0x8F, true⟩
  else ⟨replacementBytes, [], 0, 0, 0, false⟩

/-- The lossy UTF-8 decoder behind `Cow::to_string_lossy`, as a DFA over
the byte list: `pending` are the bytes of the partially matched sequence,
`need` the number of continuation bytes still required, `low`/`high` the
allowed range for the next byte.  A valid completed sequence is emitted
as-is; each maximal invalid subpart (an invalid lead byte, or the matched
prefix of a sequence whose next byte mismatches, or a truncated sequence
at the end of input) is replaced by one `replacementBytes`.  The
mismatching byte itself is re-examined in lead position, exactly as Rust
resumes validation at the error position plus `error_len`. -/
def utf8Go : List Nat → List Nat → Nat → Nat → Nat → List Nat
  | [], _, need, _, _ => if need = 0 then [] else replacementBytes
  | b :: t, pending, need, low, high =>
    if need = 0 then
      (leadClass b).emit ++
        utf8Go t (leadClass b).pending (leadClass b).need (leadClass b).low (leadClass b).high
    else if low ≤ b ∧ b ≤ high then
      if need = 1 then (pending ++ [b]) ++ utf8Go t [] 0 0 0
      else utf8Go t (pending ++ [b]) (need - 1) 0x80 0xBF
    else
      replacementBytes ++ (leadClass b).emit ++
        utf8Go t (leadClass b).pending (leadClass b).need (leadClass b).low (leadClass b).high

/-- `String::from_utf8_lossy` on a byte list: valid UTF-8 is preserved,
each maximal invalid subpart becomes one U+FFFD. -/
def utf8Lossy (l : List Nat) : List Nat := utf8Go l [] 0 0 0

/-- The plain UTF-8 validity check of `str::from_utf8` (same automaton as
`utf8Go`, accepting iff no invalid subpart occurs). -/
def validGo : List Nat → Nat → Nat → Nat → Bool
  | [], need, _, _ => need == 0
  | b :: t, need, low, high =>
    if need = 0 then
      (leadClass b).ok && validGo t (leadClass b).need (leadClass b).low (leadClass b).high
    else if low ≤ b ∧ b ≤ high then
      validGo t (need - 1) 0x80 0xBF
    else
      false

/-- Whether a byte list is valid UTF-8. -/
def validUtf8 (l : List Nat) : Bool := validGo l 0 0 0

/-- `CStr::from_ptr` followed by borrowing the content bytes: a C string's
content is the bytes strictly before the first nul terminator. -/
def cstrContent (buf : List Nat) : List Nat := buf.takeWhile (fun b => b != 0)

/-- The conversion applied by `sara_mix_executor_enqueue` to each incoming
identifier pointer: `CStr::from_ptr(p).to_string_lossy().into_owned()`. -/
def strIn (buf : List Nat) : RustStr := utf8Lossy (cstrContent buf)

/-- `CString::new` on a `String`'s bytes: fails (returns `none`) exactly
when the bytes contain an interior nul. -/
def cstringNew (s : RustStr) : Option (List Nat) :=
  if 0 ∈ s then none else some s

/-- The worker's conversion of one identifier for the callback, with the
possible panic made explicit:
`CString::new(s).unwrap_or_else(|_| CString::new("").unwrap())` — the
outer `CString::new` failure selects the fallback, and the fallback's
`.unwrap()` would panic (`none`) only if `CString::new("")` failed. -/
def cstrOutChecked (s : RustStr) : Option (List Nat) :=
  match cstringNew s with
  | some c => some c
  | none => cstringNew []

/-- The worker's conversion of one identifier, as the total function the
source computes (the checked version never panics, see `c9_no_panic`). -/
def cstrOut (s : RustStr) : List Nat := (cstrOutChecked s).getD []

/-- The channel message type (`enum Message` in the source): a work item
carrying two already-converted owned strings, or the shutdown sentinel. -/
inductive Message where
  | work (playlist_id : RustStr) (item_id : RustStr)
  | shutdown
deriving DecidableEq

/-- Program counter of the worker thread inside `fn worker`:
`check` — about to evaluate the loop condition `alive.load(Relaxed)`;
`recv` — condition was true, about to block in `rx.recv()`;
`exited` — the loop has been left (via `break` or a false condition) and
the worker function has returned, dropping the receiver. -/
inductive WPhase where
  | check
  | recv
  | exited
deriving DecidableEq

/-- Progress of the (single) `sara_mix_executor_destroy` call:
`notStarted`; `flagged` — after `alive.store(false)`; `sent` — after the
`Shutdown` send; `returned` — after `thread.join()` and the drop of the
boxed executor (which closes the sender side of the channel). -/
inductive DPhase where
  | notStarted
  | flagged
  | sent
  | returned
deriving DecidableEq

/-- Global state of one executor and its worker thread.  `alive` is the
shared `Arc<AtomicBool>`; `queue` the messages currently buffered in the
mpsc channel (FIFO, front = next to be received); `wpc`/`dpc` the program
counters above; `pend` the work messages of `enqueue` calls that have
passed the `alive` check but whose `send` has not executed yet (the
check-then-send race window); `log` the sequence of callback invocations,
each recorded as the pair of C-string byte contents passed to the
callback; `thread` the executor's `Option<JoinHandle>` field.  `sent` and
`rcvd` are ghost histories: every message whose channel send completed
successfully, and every message the worker received, in order. -/
structure Sys where
  alive : Bool
  queue : List Message
  wpc : WPhase
  dpc : DPhase
  pend : List Message
  log : List (List Nat × List Nat)
  thread : Option Unit
  sent : List Message
  rcvd : List Message
deriving DecidableEq

/-- The state set up by `sara_mix_executor_create`: flag true, channel
open and empty, worker spawned at its loop head, join handle present. -/
def initSys : Sys :=
  { alive := true, queue := [], wpc := WPhase.check, dpc := DPhase.notStarted,
    pend := [], log := [], thread := some (), sent := [], rcvd := [] }

/-- `let _ = tx.send(m)`: if the receiver is still alive (the worker
function has not returned) the message is appended to the channel buffer
and to the ghost send history; otherwise the send fails and the `Err` is
discarded, leaving the state unchanged. -/
def sendMsg (s : Sys) (m : Message) : Sys :=
  if s.wpc = WPhase.exited then s
  else { s with queue := s.queue ++ [m], sent := s.sent ++ [m] }

/-- The body of the worker loop once `rx.recv()` has returned `Ok(m)` with
`rest` still buffered: a `Work` item invokes the callback (when one was
supplied) with the two identifiers converted by
`CString::new(..).unwrap_or_else(..)` and returns to the loop condition;
`Shutdown` breaks out of the loop. -/
def workerHandleMsg (cb : Bool) (s : Sys) (m : Message) (rest : List Message) : Sys :=
  match m with
  | Message.work pl it =>
      { s with queue := rest, rcvd := s.rcvd ++ [Message.work pl it],
               wpc := WPhase.check,
               log := s.log ++ (if cb then [(cstrOut pl, cstrOut it)] else []) }
  | Message.shutdown =>
      { s with queue := rest, rcvd := s.rcvd ++ [Message.shutdown],
               wpc := WPhase.exited }

/-- One atomic step of the system, interleaving the worker thread, any
number of caller threads running `sara_mix_executor_enqueue` (decomposed
into its `alive` check and its later `send`, which may be reordered
between racing callers), and the single `sara_mix_executor_destroy` call
(decomposed into flag store, `Shutdown` send, and join).  `cb` records
whether a callback was supplied to `sara_mix_executor_create`. -/
inductive Step (cb : Bool) : Sys → Sys → Prop where
  | enqueue_check_pass (s : Sys) (pl it : List Nat) (h : s.alive = true) :
      Step cb s { s with pend := s.pend ++ [Message.work (strIn pl) (strIn it)] }
  | enqueue_check_fail (s : Sys) (h : s.alive = false) :
      Step cb s s
  | enqueue_send (s : Sys) (m : Message) (l1 l2 : List Message)
      (h : s.pend = l1 ++ m :: l2) :
      Step cb s (sendMsg { s with pend := l1 ++ l2 } m)
  | destroy_flag (s : Sys) (h : s.dpc = DPhase.notStarted) :
      Step cb s { s with alive := false, dpc := DPhase.flagged }
  | destroy_send (s : Sys) (h : s.dpc = DPhase.flagged) :
      Step cb s (sendMsg { s with dpc := DPhase.sent } Message.shutdown)
  | destroy_join (s : Sys) (h1 : s.dpc = DPhase.sent) (h2 : s.wpc = WPhase.exited) :
      Step cb s { s with dpc := DPhase.returned, thread := none }
  | worker_check_true (s : Sys) (h1 : s.wpc = WPhase.check) (h2 : s.alive = true) :
      Step cb s { s with wpc := WPhase.recv }
  | worker_check_false (s : Sys) (h1 : s.wpc = WPhase.check) (h2 : s.alive = false) :
      Step cb s { s with wpc := WPhase.exited }
  | worker_recv (s : Sys) (m : Message) (rest : List Message)
      (h1 : s.wpc = WPhase.recv) (h2 : s.queue = m :: rest) :
      Step cb s (workerHandleMsg cb s m rest)
  | worker_recv_closed (s : Sys) (h1 : s.wpc = WPhase.recv) (h2 : s.queue = [])
      (h3 : s.dpc = DPhase.returned) :
      Step cb s { s with wpc := WPhase.exited }

/-- Reachability: finitely many interleaved steps. -/
def Reach (cb : Bool) : Sys → Sys → Prop := Relation.ReflTransGen (Step cb)

/-- `sara_mix_executor_create`: allocates the channel, sets the flag true,
spawns the worker bound to the callback `cb`, and boxes the executor;
`Box::into_raw` of a live allocation is never null, so the returned handle
is always `some`.  The spawned worker's subsequent behaviour is the
`Step cb` relation started at `initSys`. -/
def sara_mix_executor_create (cb : Bool) : Option Sys :=
  some initSys

/-- `sara_mix_executor_enqueue` at call granularity (no interference
between its check and its send; the racing decomposition is the pair of
`Step` constructors `enqueue_check_pass` / `enqueue_send`).  A null
handle or a null identifier pointer returns immediately; a false liveness
flag returns without sending; otherwise the identifiers are converted to
owned strings and one `Work` message is sent, any send error discarded. -/
def sara_mix_executor_enqueue (handle : Option Sys)
    (playlist_id item_id : Option (List Nat)) : Option Sys :=
  match handle, playlist_id, item_id with
  | none, _, _ => none
  | some s, none, _ => some s
  | some s, _, none => some s
  | some s, some pl, some it =>
      if s.alive = false then some s
      else some (sendMsg s (Message.work (strIn pl) (strIn it)))

/-- `sara_mix_executor_destroy`, null check and caller-visible mutation:
a null handle returns immediately; otherwise the flag is stored false and
`Shutdown` is sent.  The blocking join and the final drop of the box are
inter-thread interactions and are the `Step` constructors `destroy_flag`,
`destroy_send`, `destroy_join`. -/
def sara_mix_executor_destroy (handle : Option Sys) : Option Sys :=
  match handle with
  | none => none
  | some s => some (sendMsg { s with alive := false, dpc := DPhase.sent } Message.shutdown)

/-- The payloads of the `Work` messages of a message list, in order. -/
def worksOf : List Message → List (RustStr × RustStr)
  | [] => []
  | Message.work pl it :: t => (pl, it) :: worksOf t
  | Message.shutdown :: t => worksOf t

/-- The argument pair the worker passes to the callback for one `Work`
payload pair. -/
def outPair (p : RustStr × RustStr) : List Nat × List Nat :=
  (cstrOut p.1, cstrOut p.2)

/-- A concrete playlist identifier used in witness executions. -/
def pl0 : List Nat := [112, 108]

/-- A concrete item identifier used in witness executions. -/
def it0 : List Nat := [105, 116]

/-- The `Work` message produced by enqueuing `pl0`, `it0`. -/
def mWork : Message := Message.work (strIn pl0) (strIn it0)

/-- Final state of a complete, race-free run with a callback: one item is
enqueued and delivered, then `destroy` flips the flag, sends `Shutdown`,
the worker receives it and exits, and the join completes. -/
def sRun : Sys :=
  { alive := false, queue := [], wpc := WPhase.exited, dpc := DPhase.returned,
    pend := [], log := [(cstrOut (strIn pl0), cstrOut (strIn it0))],
    thread := none, sent := [mWork, Message.shutdown],
    rcvd := [mWork, Message.shutdown] }

/-- Final state of the same complete run without a callback. -/
def sRun0 : Sys :=
  { alive := false, queue := [], wpc := WPhase.exited, dpc := DPhase.returned,
    pend := [], log := [],
    thread := none, sent := [mWork, Message.shutdown],
    rcvd := [mWork, Message.shutdown] }

/-- Final state of the racing run in which an accepted item is dropped:
one item is enqueued and successfully sent, then `destroy` flips the flag
and sends `Shutdown` before the worker reaches its loop-head check; the
worker observes `alive = false` there and exits without receiving
anything, and the join completes with the item still buffered. -/
def sDrop : Sys :=
  { alive := false, queue := [mWork, Message.shutdown], wpc := WPhase.exited,
    dpc := DPhase.returned, pend := [], log := [],
    thread := none, sent := [mWork, Message.shutdown], rcvd := [] }

theorem sanity1 : utf8Lossy [0xFF] = replacementBytes := by decide
theorem sanity2 : utf8Lossy [0x41, 0xC2, 0xA9] = [0x41, 0xC2, 0xA9] := by decide
theorem sanity3 : utf8Lossy [0xC2, 0x41] = replacementBytes ++ [0x41] := by decide
theorem sanity4 : utf8Lossy [0xED, 0xA0, 0x80] =
    replacementBytes ++ replacementBytes ++ replacementBytes := by decide
theorem sanity5 : utf8Lossy [0xF0, 0x9F, 0x92, 0x96] = [0xF0, 0x9F, 0x92, 0x96] := by decide
theorem sanity6 : utf8Lossy [0xE1, 0x80, 0x41] = replacementBytes ++ [0x41] := by decide
theorem sanity7 : validUtf8 [0xFF] = false := by decide
theorem sanity8 : validUtf8 [0x41, 0xC2, 0xA9] = true := by decide
theorem sanity9 : strIn [0xFF, 0x00, 0x41] = replacementBytes := by decide
theorem sanity10 : cstrOut [0x41] = [0x41] := by decide
theorem sanity11 : cstrOut [0x41, 0x00, 0x42] = [] := by decide

theorem sRun_reach : Reach true initSys sRun :=
  .head (Step.enqueue_check_pass initSys pl0 it0 rfl)
  (.head (Step.enqueue_send _ mWork [] [] rfl)
  (.head (Step.worker_check_true _ rfl rfl)
  (.head (Step.worker_recv _ mWork [] rfl rfl)
  (.head (Step.worker_check_true _ rfl rfl)
  (.head (Step.destroy_flag _ rfl)
  (.head (Step.destroy_send _ rfl)
  (.head (Step.worker_recv _ Message.shutdown [] rfl rfl)
  (.head (Step.destroy_join _ rfl rfl)
  .refl))))))))

theorem sRun0_reach : Reach false initSys sRun0 :=
  .head (Step.enqueue_check_pass initSys pl0 it0 rfl)
  (.head (Step.enqueue_send _ mWork [] [] rfl)
  (.head (Step.worker_check_true _ rfl rfl)
  (.head (Step.worker_recv _ mWork [] rfl rfl)
  (.head (Step.worker_check_true _ rfl rfl)
  (.head (Step.destroy_flag _ rfl)
  (.head (Step.destroy_send _ rfl)
  (.head (Step.worker_recv _ Message.shutdown [] rfl rfl)
  (.head (Step.destroy_join _ rfl rfl)
  .refl))))))))

theorem sDrop_reach : Reach true initSys sDrop :=
  .head (Step.enqueue_check_pass initSys pl0 it0 rfl)
  (.head (Step.enqueue_send _ mWork [] [] rfl)
  (.head (Step.destroy_flag _ rfl)
  (.head (Step.destroy_send _ rfl)
  (.head (Step.worker_check_false _ rfl rfl)
  (.head (Step.destroy_join _ rfl rfl)
  .refl)))))

theorem leadClass_emit_mem (b x : Nat) (h : x ∈ (leadClass b).emit) :
    x = b ∨ x ∈ replacementBytes := by
  unfold leadClass at h
  split_ifs at h <;> simp_all

theorem leadClass_pending_mem (b x : Nat) (h : x ∈ (leadClass b).pending) : x = b := by
  unfold leadClass at h
  split_ifs at h <;> simp_all

theorem utf8Go_mem : ∀ (l pending : List Nat) (need low high x : Nat),
    x ∈ utf8Go l pending need low high → x ∈ pending ∨ x ∈ l ∨ x ∈ replacementBytes := by
  intro l
  induction l with
  | nil =>
    intro pending need low high x h
    simp only [utf8Go] at h
    split at h
    · simp at h
    · exact Or.inr (Or.inr h)
  | cons b t ih =>
    intro pending need low high x h
    simp only [utf8Go] at h
    split at h
    · rw [List.mem_append] at h
      rcases h with h | h
      · rcases leadClass_emit_mem b x h with rfl | h
        · exact Or.inr (Or.inl (List.mem_cons_self _ _))
        · exact Or.inr (Or.inr h)
      · rcases ih _ _ _ _ x h with h | h | h
        · rcases leadClass_pending_mem b x h with rfl
          exact Or.inr (Or.inl (List.mem_cons_self _ _))
        · exact Or.inr (Or.inl (List.mem_cons_of_mem _ h))
        · exact Or.inr (Or.inr h)
    · split at h
      · split at h
        · rw [List.mem_append] at h
          rcases h with h | h
          · rw [List.mem_append] at h
            rcases h with h | h
            · exact Or.inl h
            · rw [List.mem_singleton] at h
              rcases h with rfl
              exact Or.inr (Or.inl (List.mem_cons_self _ _))
          · rcases ih _ _ _ _ x h with h | h | h
            · simp at h
            · exact Or.inr (Or.inl (List.mem_cons_of_mem _ h))
            · exact Or.inr (Or.inr h)
        · rcases ih _ _ _ _ x h with h | h | h
          · rw [List.mem_append] at h
            rcases h with h | h
            · exact Or.inl h
            · rw [List.mem_singleton] at h
              rcases h with rfl
              exact Or.inr (Or.inl (List.mem_cons_self _ _))
          · exact Or.inr (Or.inl (List.mem_cons_of_mem _ h))
          · exact Or.inr (Or.inr h)
      · rw [List.mem_append] at h
        rcases h with h | h
        · rw [List.mem_append] at h
          rcases h with h | h
          · exact Or.inr (Or.inr h)
          · rcases leadClass_emit_mem b x h with rfl | h
            · exact Or.inr (Or.inl (List.mem_cons_self _ _))
            · exact Or.inr (Or.inr h)
        · rcases ih _ _ _ _ x h with h | h | h
          · rcases leadClass_pending_mem b x h with rfl
            exact Or.inr (Or.inl (List.mem_cons_self _ _))
          · exact Or.inr (Or.inl (List.mem_cons_of_mem _ h))
          · exact Or.inr (Or.inr h)

/-- The enqueue-side conversion never produces a nul byte: the C-string
content contains none, and the replacement sequence contains none. -/
theorem strIn_no_nul (buf : List Nat) : 0 ∉ strIn buf := by
  intro h
  rcases utf8Go_mem _ _ _ _ _ _ h with h | h | h
  · simp at h
  · have := List.mem_takeWhile_imp h
    simp at this
  · simp [replacementBytes] at h

/-- On worker input produced by the enqueue path, `CString::new` always
succeeds, so the empty-string fallback is dead code there. -/
theorem cstrOut_strIn (buf : List Nat) : cstrOut (strIn buf) = strIn buf := by
  simp [cstrOut, cstrOutChecked, cstringNew, strIn_no_nul buf]

theorem worksOf_append (l1 l2 : List Message) :
    worksOf (l1 ++ l2) = worksOf l1 ++ worksOf l2 := by
  induction l1 with
  | nil => rfl
  | cons m t ih => cases m <;> simp [worksOf, ih]

/-- Once the worker function has returned, no step moves its program
counter away from `exited` or appends to the callback log. -/
theorem step_exited {cb : Bool} {s s' : Sys} (h : Step cb s s')
    (he : s.wpc = WPhase.exited) :
    s'.wpc = WPhase.exited ∧ s'.log = s.log := by
  cases h with
  | enqueue_check_pass pl it ha => exact ⟨he, rfl⟩
  | enqueue_check_fail ha => exact ⟨he, rfl⟩
  | enqueue_send m l1 l2 hp => rw [sendMsg]; simp [he]
  | destroy_flag hd => exact ⟨he, rfl⟩
  | destroy_send hd => rw [sendMsg]; simp [he]
  | destroy_join h1 h2 => exact ⟨he, rfl⟩
  | worker_check_true h1 h2 => simp [he] at h1
  | worker_check_false h1 h2 => simp [he] at h1
  | worker_recv m rest h1 h2 => simp [he] at h1
  | worker_recv_closed h1 h2 h3 => simp [he] at h1

/-- Transitive closure of `step_exited`: after exit, the worker stays
exited and the callback log never changes again. -/
theorem exited_frozen {cb : Bool} {s s' : Sys}
    (h : Relation.ReflTransGen (Step cb) s s') (he : s.wpc = WPhase.exited) :
    s'.wpc = WPhase.exited ∧ s'.log = s.log := by
  induction h with
  | refl => exact ⟨he, rfl⟩
  | tail hab hbc ih =>
    rcases ih with ⟨hw, hl⟩
    rcases step_exited hbc hw with ⟨hw2, hl2⟩
    exact ⟨hw2, hl2.trans hl⟩

/-- `destroy` can only have returned after its join, hence with the worker
exited. -/
theorem returned_exited {cb : Bool} {s : Sys} (h : Reach cb initSys s)
    (hd : s.dpc = DPhase.returned) : s.wpc = WPhase.exited := by
  induction h with
  | refl => simp [initSys] at hd
  | tail hab hbc ih =>
    cases hbc with
    | enqueue_check_pass pl it ha => exact ih hd
    | enqueue_check_fail ha => exact ih hd
    | enqueue_send m l1 l2 hp =>
      rw [sendMsg] at hd ⊢
      split at hd <;> split <;> simp_all
    | destroy_flag h1 => simp at hd
    | destroy_send h1 => rw [sendMsg] at hd; split at hd <;> simp_all
    | destroy_join h1 h2 => exact h2
    | worker_check_true h1 h2 =>
      have := ih hd
      simp [this] at h1
    | worker_check_false h1 h2 => rfl
    | worker_recv m rest h1 h2 =>
      cases m with
      | work pl it =>
        rw [workerHandleMsg] at hd ⊢
        have := ih hd
        simp [this] at h1
      | shutdown => rfl
    | worker_recv_closed h1 h2 h3 => rfl

/-- FIFO channel invariant: the successful-send history is exactly the
receive history followed by the still-buffered messages. -/
theorem fifo_inv {cb : Bool} {s : Sys} (h : Reach cb initSys s) :
    s.sent = s.rcvd ++ s.queue := by
  induction h with
  | refl => rfl
  | tail hab hbc ih =>
    cases hbc with
    | enqueue_check_pass pl it ha => simpa using ih
    | enqueue_check_fail ha => exact ih
    | enqueue_send m l1 l2 hp =>
      rw [sendMsg]
      split
      · simpa using ih
      · simp [ih]
    | destroy_flag h1 => simpa using ih
    | destroy_send h1 =>
      rw [sendMsg]
      split
      · simpa using ih
      · simp [ih]
    | destroy_join h1 h2 => simpa using ih
    | worker_check_true h1 h2 => simpa using ih
    | worker_check_false h1 h2 => simpa using ih
    | worker_recv m rest h1 h2 =>
      cases m with
      | work pl it => simp [workerHandleMsg, ih, h2]
      | shutdown => simp [workerHandleMsg, ih, h2]
    | worker_recv_closed h1 h2 h3 => simpa using ih

/-- Callback-log invariant: with a callback present, the log holds exactly
the converted payloads of the `Work` messages received so far, in order;
with no callback, the log stays empty. -/
theorem log_inv {cb : Bool} {s : Sys} (h : Reach cb initSys s) :
    s.log = if cb then (worksOf s.rcvd).map outPair else [] := by
  induction h with
  | refl => cases cb <;> rfl
  | tail hab hbc ih =>
    cases hbc with
    | enqueue_check_pass pl it ha => simpa using ih
    | enqueue_check_fail ha => exact ih
    | enqueue_send m l1 l2 hp =>
      rw [sendMsg]
      split
      · simpa using ih
      · simpa using ih
    | destroy_flag h1 => simpa using ih
    | destroy_send h1 =>
      rw [sendMsg]
      split
      · simpa using ih
      · simpa using ih
    | destroy_join h1 h2 => simpa using ih
    | worker_check_true h1 h2 => simpa using ih
    | worker_check_false h1 h2 => simpa using ih
    | worker_recv m rest h1 h2 =>
      cases m with
      | work pl it =>
        cases cb <;>
          simp [workerHandleMsg, worksOf_append, worksOf, outPair, ih]
      | shutdown =>
        cases cb <;> simp [workerHandleMsg, worksOf_append, worksOf, ih]
    | worker_recv_closed h1 h2 h3 => simpa using ih

/-- Claim C1 (counterexample): the claim "every Work item successfully
sent into the channel before destroy's Shutdown send is delivered to the
callback before the worker exits" is false.  In this reachable execution
with a callback present, one `Work` item was successfully sent (it is in
the ghost send history, ahead of `Shutdown`), `destroy` has returned and
the worker has exited, yet the callback log is empty: the worker observed
the liveness flag `false` at its loop head and exited, silently dropping
the accepted item. -/
theorem c1_counterexample :
    Reach true initSys sDrop ∧ sDrop.wpc = WPhase.exited ∧
    sDrop.dpc = DPhase.returned ∧
    worksOf sDrop.sent = [(strIn pl0, strIn it0)] ∧ sDrop.log = [] :=
  ⟨sDrop_reach, rfl, rfl, rfl, rfl⟩

/-- Claim C1 (amended): the worker delivers to the callback, in order,
exactly the Work items it actually receives from the channel; the items
it never receives (`dropped`, the suffix of the send history still
buffered) are lost when the worker observes the flag `false` at the loop
head — so delivery of every accepted item is not guaranteed under a
racing `destroy`. -/
theorem c1_delivered_iff_received (s : Sys) (h : Reach true initSys s) :
    s.log = (worksOf s.rcvd).map outPair ∧
    ∃ dropped, s.sent = s.rcvd ++ dropped :=
  ⟨by simpa using log_inv h, s.queue, fifo_inv h⟩

/-- Claim C1 (witness): the amended statement at the end of the race-free
run `sRun`. -/
theorem c1_delivered_iff_received_witness :
    sRun.log = (worksOf sRun.rcvd).map outPair ∧
    ∃ dropped, sRun.sent = sRun.rcvd ++ dropped :=
  c1_delivered_iff_received sRun sRun_reach

/-- Claim C2 (counterexample): the claim "an identifier whose bytes are
not representable (invalid encoding) reaches the callback as an empty
string" is false: the single byte `0xFF` is invalid UTF-8, yet the
callback receives the UTF-8 encoding of U+FFFD, not the empty string. -/
theorem c2_counterexample :
    validUtf8 (cstrContent [0xFF]) = false ∧
    cstrOut (strIn [0xFF]) = replacementBytes ∧ replacementBytes ≠ [] :=
  ⟨by decide, by decide, by decide⟩

/-- Claim C2 (amended): the callback receives, for each identifier, the
lossy conversion of the bytes up to the first nul — invalid encoding is
repaired with U+FFFD replacement characters (never substituted by an
empty string), bytes from an embedded nul onward are dropped by the
C-string boundary, and the worker-side `CString::new` never fails on this
path (its empty-string fallback is unreachable), so no fault occurs. -/
theorem c2_lossy_roundtrip (buf : List Nat) :
    cstrOut (strIn buf) = utf8Lossy (cstrContent buf) ∧
    (cstrOutChecked (strIn buf)).isSome = true := by
  refine ⟨cstrOut_strIn buf, ?_⟩
  simp [cstrOutChecked, cstringNew, strIn_no_nul buf]

/-- Claim C3: FIFO channel order.  In every reachable state the ghost
history of successfully completed sends is exactly the worker's receive
history followed by the still-buffered queue: the worker receives
messages in precisely their send-completion order, and the `Shutdown`
sentinel is ordered like any other message in that single total order. -/
theorem c3_fifo (cb : Bool) (s : Sys) (h : Reach cb initSys s) :
    s.sent = s.rcvd ++ s.queue :=
  fifo_inv h

/-- Claim C3 (witness): the FIFO invariant at the end of the run `sRun`,
where the `Work` item and the `Shutdown` were received in send order. -/
theorem c3_fifo_witness : sRun.sent = sRun.rcvd ++ sRun.queue :=
  c3_fifo true sRun sRun_reach

/-- Claim C4: once `destroy` has returned (its join has completed), the
callback is never invoked again: over any further steps — including stale
`enqueue` attempts on the destroyed handle — the worker stays exited and
the callback log never changes. -/
theorem c4_silent_after_destroy (cb : Bool) (s s' : Sys)
    (h : Reach cb initSys s) (hd : s.dpc = DPhase.returned)
    (h' : Relation.ReflTransGen (Step cb) s s') :
    s'.wpc = WPhase.exited ∧ s'.log = s.log :=
  exited_frozen h' (returned_exited h hd)

/-- Claim C4 (witness): after the destroyed end-state `sDrop`, a further
stale `enqueue` attempt (its liveness check reads `false`) invokes
nothing. -/
theorem c4_silent_after_destroy_witness :
    sDrop.wpc = WPhase.exited ∧ sDrop.log = sDrop.log :=
  c4_silent_after_destroy true sDrop sDrop sDrop_reach rfl
    (.head (Step.enqueue_check_fail sDrop rfl) .refl)

/-- Claim C5: a null handle, null `playlist_id`, or null `item_id` makes
`sara_mix_executor_enqueue` return immediately with the state untouched
and nothing sent, and a null handle makes `sara_mix_executor_destroy` a
no-op. -/
theorem c5_null_noop (s : Sys) (pl it : List Nat) :
    sara_mix_executor_enqueue none (some pl) (some it) = none ∧
    sara_mix_executor_enqueue none none none = none ∧
    sara_mix_executor_enqueue (some s) none (some it) = some s ∧
    sara_mix_executor_enqueue (some s) (some pl) none = some s ∧
    sara_mix_executor_destroy none = none :=
  ⟨rfl, rfl, rfl, rfl, rfl⟩

/-- Claim C6: on a non-null handle with non-null identifiers, `enqueue`
is a silent no-op when the liveness flag reads false; otherwise it makes
owned converted copies of the two identifiers and sends exactly one
`Work` message carrying them (appended once to the queue and to the send
history), and if the channel is already closed (worker exited) the send
failure is swallowed, leaving the state unchanged. -/
theorem c6_enqueue_effect (s : Sys) (pl it : List Nat) :
    (s.alive = false →
      sara_mix_executor_enqueue (some s) (some pl) (some it) = some s) ∧
    (s.alive = true → s.wpc ≠ WPhase.exited →
      sara_mix_executor_enqueue (some s) (some pl) (some it) =
        some { s with
                 queue := s.queue ++ [Message.work (strIn pl) (strIn it)],
                 sent := s.sent ++ [Message.work (strIn pl) (strIn it)] }) ∧
    (s.alive = true → s.wpc = WPhase.exited →
      sara_mix_executor_enqueue (some s) (some pl) (some it) = some s) := by
  refine ⟨fun h => ?_, fun h1 h2 => ?_, fun h1 h2 => ?_⟩
  · simp [sara_mix_executor_enqueue, h]
  · simp [sara_mix_executor_enqueue, sendMsg, h1, h2]
  · simp [sara_mix_executor_enqueue, sendMsg, h1, h2]

/-- Claim C6 (witness): enqueuing on the freshly created state sends
exactly one `Work` message with the converted identifiers. -/
theorem c6_enqueue_effect_witness :
    sara_mix_executor_enqueue (some initSys) (some pl0) (some it0) =
      some { initSys with queue := [Message.work (strIn pl0) (strIn it0)],
                          sent := [Message.work (strIn pl0) (strIn it0)] } :=
  (c6_enqueue_effect initSys pl0 it0).2.1 rfl (by decide)

/-- Claim C7: receiving `Shutdown` makes the worker exit at once, with no
further item processed (the log is untouched and the remaining buffer is
left unread); and exit is final — from any exited state, any number of
further steps leaves the worker exited with the log unchanged, so the
loop can never be restarted and the callback is never invoked again.
(The only other way the loop ends, `rx.recv()` failing with all senders
dropped, is the `Step.worker_recv_closed` transition, whose target state
likewise only moves the program counter to `exited`.) -/
theorem c7_shutdown_exits (cb : Bool) (s s' : Sys) (rest : List Message) :
    ((workerHandleMsg cb s Message.shutdown rest).wpc = WPhase.exited ∧
     (workerHandleMsg cb s Message.shutdown rest).log = s.log) ∧
    (s.wpc = WPhase.exited → Relation.ReflTransGen (Step cb) s s' →
      s'.wpc = WPhase.exited ∧ s'.log = s.log) :=
  ⟨⟨rfl, rfl⟩, fun he h => exited_frozen h he⟩

/-- Claim C7 (witness): at the destroyed end-state `sDrop` (worker
exited), one more step — a stale enqueue liveness check — leaves the
worker exited with the log unchanged, and a hypothetical `Shutdown`
reception exits immediately. -/
theorem c7_shutdown_exits_witness :
    ((workerHandleMsg true initSys Message.shutdown []).wpc = WPhase.exited ∧
     (workerHandleMsg true initSys Message.shutdown []).log = initSys.log) ∧
    (sDrop.wpc = WPhase.exited ∧ sDrop.log = sDrop.log) :=
  ⟨(c7_shutdown_exits true initSys initSys []).1,
   (c7_shutdown_exits true sDrop sDrop []).2 rfl
     (.head (Step.enqueue_check_fail sDrop rfl) .refl)⟩

/-- Claim C8: with no callback supplied, every delivered item is silently
discarded — in every reachable state of the null-callback system the
invocation log is empty — and a full create / enqueue / destroy sequence
still completes normally (the concrete run `sRun0` reaches a state with
`destroy` returned and nothing ever invoked). -/
theorem c8_null_callback_drops :
    (∀ s : Sys, Reach false initSys s → s.log = []) ∧
    (Reach false initSys sRun0 ∧ sRun0.dpc = DPhase.returned ∧
      sRun0.log = []) :=
  ⟨fun _ h => by simpa using log_inv h, sRun0_reach, rfl, rfl⟩

/-- Claim C8 (witness): the universally quantified part applied to the
complete null-callback run. -/
theorem c8_null_callback_drops_witness : sRun0.log = [] :=
  c8_null_callback_drops.1 sRun0 sRun0_reach

/-- Claim C9: the worker's conversion of a received identifier never
panics, whatever the byte contents (interior nuls included): the checked
conversion — with the `unwrap` panics modelled as `none` — always returns
a value, and that value is the one the total function `cstrOut` used by
the worker loop computes (falling back to the empty string when
`CString::new` rejects the bytes). -/
theorem c9_no_panic (s : RustStr) :
    (cstrOutChecked s).isSome = true ∧ cstrOutChecked s = some (cstrOut s) := by
  by_cases h : 0 ∈ s <;> simp [cstrOutChecked, cstringNew, cstrOut, h]

/-- Claim C10: `create` always returns a non-null handle, and the state it
returns has the liveness flag true, the channel open on both ends (the
worker holds the receiver at its loop head, the sender has not been
dropped), an empty queue, and a present join handle in the `thread`
field — so the first `destroy` finds a thread to join. -/
theorem c10_create_state (cb : Bool) :
    (sara_mix_executor_create cb).isSome = true ∧
    sara_mix_executor_create cb = some initSys ∧
    initSys.alive = true ∧ initSys.thread = some () ∧
    initSys.wpc ≠ WPhase.exited ∧ initSys.dpc ≠ DPhase.returned ∧
    initSys.queue = [] :=
  ⟨rfl, rfl, rfl, rfl, by decide, by decide, rfl⟩
